import Mathlib

/-!
# Verification of the lajfi artificial-life core

Shallow embedding of the lajfi repository (`config.py`, `gielis.py`,
`dna.py`, `creature.py`, `plant.py`, `world.py`) and proofs about it.

Python floats are modelled as rationals (`ℚ`) wherever the code only does
field arithmetic and comparisons, and as reals (`ℝ`) where the code calls
transcendental functions (`math.cos`, `math.sin`, `math.sqrt`, `x ** y`):
world positions and distances are reals, energies and DNA values are
rationals.  Every call to the `random` module is modelled by an explicit
draw passed in as an argument (an oracle); the contract of the call site
(`random.uniform(a, b)` produces a value in `[a, b]`, `random.randint(a, b)`
an integer in `[a, b]`, `random.random()` a value in `[0, 1)`) becomes a
hypothesis where a theorem needs it.  Python object identity (used by
`x is not c`, `x not in killed`, `list.remove`) is modelled by numeric ids
carried in the structures, mirroring the unique `TriadCreature.counter` ids
of the source.
-/

namespace Lajfi

/-! ## config.py -/

def WORLD_SIZE : ℝ := 20
def MAX_CREATURES : ℕ := 3
def MAX_PLANTS : ℕ := 8
def START_ENERGY : ℚ := 40
def MOVEMENT_COST : ℚ := 0.6
def IDLE_COST : ℚ := 0.2
def PLANT_ENERGY : ℚ := 25
def EAT_RANGE : ℝ := 2.0
def STARVATION_THRESHOLD : ℚ := 0
def MATING_RANGE : ℝ := 3.0
def MATING_ENERGY : ℚ := 60
def MATING_COST : ℚ := 30
def MUTATION_RATE : ℚ := 0.20
def MUTATION_STRENGTH : ℚ := 0.25
def ATTACK_COST : ℚ := 8
def KILL_ENERGY_GAIN : ℚ := 0.7
def CANNIBAL_RANGE : ℝ := 3.0
def SATISFIED_ENERGY : ℚ := 70
def MIN_FRACTAL_LEVELS : ℤ := 2
def MAX_FRACTAL_LEVELS : ℤ := 3
def MIN_CHILDREN : ℤ := 2
def MAX_CHILDREN : ℤ := 5

/-! ## dna.py

A Gielis gene is the 8-parameter dictionary built by `random_gielis_gene`;
the whole DNA dictionary has the three genes `lajfi_1 .. lajfi_3`
(`GIELIS_GENES`) plus the scalar traits, in insertion order. -/

structure GielisGene where
  m1 : ℤ
  m2 : ℤ
  n1 : ℚ
  n2 : ℚ
  n3 : ℚ
  n1b : ℚ
  n2b : ℚ
  n3b : ℚ
deriving DecidableEq

structure DNA where
  lajfi_1 : GielisGene
  lajfi_2 : GielisGene
  lajfi_3 : GielisGene
  fractal_levels : ℤ
  fractal_children : ℤ
  scale_factor : ℚ
  speed : ℚ
deriving DecidableEq

/-- Draws consumed by one call of `random_gielis_gene`:
`rm1 = random.randint(3, 14)`, `rm2 = random.randint(2, 12)`, and the six
`random.uniform` draws for the curvature floats. -/
structure GeneDraws where
  rm1 : ℤ
  rm2 : ℤ
  rn1 : ℚ
  rn2 : ℚ
  rn3 : ℚ
  rn1b : ℚ
  rn2b : ℚ
  rn3b : ℚ
deriving DecidableEq

/-- Python `random_gielis_gene()`: each field is the corresponding draw
(the sampling ranges are the call-site contracts of the draws). -/
def random_gielis_gene (r : GeneDraws) : GielisGene :=
  { m1 := r.rm1, m2 := r.rm2
    n1 := r.rn1, n2 := r.rn2, n3 := r.rn3
    n1b := r.rn1b, n2b := r.rn2b, n3b := r.rn3b }

/-- The draw contracts of `random_gielis_gene`:
`m1 = random.randint(3, 14)`, `m2 = random.randint(2, 12)`,
`n1 = random.uniform(0.08, 0.9)`, `n2, n3 = random.uniform(0.5, 3.5)`,
`n1b = random.uniform(0.1, 0.95)`, `n2b, n3b = random.uniform(0.4, 3.2)`. -/
def GeneDrawsOk (r : GeneDraws) : Prop :=
  3 ≤ r.rm1 ∧ r.rm1 ≤ 14 ∧ 2 ≤ r.rm2 ∧ r.rm2 ≤ 12 ∧
  0.08 ≤ r.rn1 ∧ r.rn1 ≤ 0.9 ∧ 0.5 ≤ r.rn2 ∧ r.rn2 ≤ 3.5 ∧
  0.5 ≤ r.rn3 ∧ r.rn3 ≤ 3.5 ∧ 0.1 ≤ r.rn1b ∧ r.rn1b ≤ 0.95 ∧
  0.4 ≤ r.rn2b ∧ r.rn2b ≤ 3.2 ∧ 0.4 ≤ r.rn3b ∧ r.rn3b ≤ 3.2

instance (r : GeneDraws) : Decidable (GeneDrawsOk r) := by
  unfold GeneDrawsOk; infer_instance

/-- Draws consumed by one call of `random_dna`:
three gene draw blocks plus `randint(MIN_FRACTAL_LEVELS, MAX_FRACTAL_LEVELS)`,
`randint(MIN_CHILDREN, MAX_CHILDREN)`, `uniform(0.45, 0.70)` for the scale
factor and `uniform(0.2, 0.5)` for the speed. -/
structure DnaDraws where
  gene1 : GeneDraws
  gene2 : GeneDraws
  gene3 : GeneDraws
  rlevels : ℤ
  rchildren : ℤ
  rscale : ℚ
  rspeed : ℚ
deriving DecidableEq

/-- Python `random_dna()`. -/
def random_dna (r : DnaDraws) : DNA :=
  { lajfi_1 := random_gielis_gene r.gene1
    lajfi_2 := random_gielis_gene r.gene2
    lajfi_3 := random_gielis_gene r.gene3
    fractal_levels := r.rlevels
    fractal_children := r.rchildren
    scale_factor := r.rscale
    speed := r.rspeed }

/-- The draw contracts of `random_dna`. -/
def DnaDrawsOk (r : DnaDraws) : Prop :=
  GeneDrawsOk r.gene1 ∧ GeneDrawsOk r.gene2 ∧ GeneDrawsOk r.gene3 ∧
  MIN_FRACTAL_LEVELS ≤ r.rlevels ∧ r.rlevels ≤ MAX_FRACTAL_LEVELS ∧
  MIN_CHILDREN ≤ r.rchildren ∧ r.rchildren ≤ MAX_CHILDREN ∧
  0.45 ≤ r.rscale ∧ r.rscale ≤ 0.70 ∧ 0.2 ≤ r.rspeed ∧ r.rspeed ≤ 0.5

instance (r : DnaDraws) : Decidable (DnaDrawsOk r) := by
  unfold DnaDrawsOk; infer_instance

/-- Draws consumed by one call of `combine_dna`: for each Gielis gene the
`random.random()` coin compared against 0.5, for each integer trait the
`random.choice([v1, v2])` pick (modelled as a Bool choosing parent 1), and
for each float trait the `random.uniform(0.3, 0.7)` mix ratio. -/
structure CombineDraws where
  u1 : ℚ
  u2 : ℚ
  u3 : ℚ
  pick_levels : Bool
  pick_children : Bool
  mix_scale : ℚ
  mix_speed : ℚ
deriving DecidableEq

/-- Python `combine_dna(dna1, dna2)`: whole Gielis genes from one parent by coin,
integers picked from one parent, floats blended with the drawn mix. -/
def combine_dna (dna1 dna2 : DNA) (r : CombineDraws) : DNA :=
  { lajfi_1 := if r.u1 < 0.5 then dna1.lajfi_1 else dna2.lajfi_1
    lajfi_2 := if r.u2 < 0.5 then dna1.lajfi_2 else dna2.lajfi_2
    lajfi_3 := if r.u3 < 0.5 then dna1.lajfi_3 else dna2.lajfi_3
    fractal_levels :=
      if r.pick_levels then dna1.fractal_levels else dna2.fractal_levels
    fractal_children :=
      if r.pick_children then dna1.fractal_children else dna2.fractal_children
    scale_factor :=
      dna1.scale_factor * r.mix_scale + dna2.scale_factor * (1 - r.mix_scale)
    speed := dna1.speed * r.mix_speed + dna2.speed * (1 - r.mix_speed) }

/-- Draws consumed by mutating one Gielis gene inside `mutate_dna`: a
`random.random()` coin per field (compared against `MUTATION_RATE`), a
`random.randint(-2, 2)` shift per symmetry field, and a
`random.uniform(-1, 1)` factor per curvature field. -/
structure GeneMutDraws where
  u_m1 : ℚ
  d_m1 : ℤ
  u_m2 : ℚ
  d_m2 : ℤ
  u_n1 : ℚ
  e_n1 : ℚ
  u_n2 : ℚ
  e_n2 : ℚ
  u_n3 : ℚ
  e_n3 : ℚ
  u_n1b : ℚ
  e_n1b : ℚ
  u_n2b : ℚ
  e_n2b : ℚ
  u_n3b : ℚ
  e_n3b : ℚ
deriving DecidableEq

/-- The per-gene part of `mutate_dna`: symmetry fields shift by the randint
draw and clamp into `[3, 12]`; curvature fields get a relative perturbation
`gval * MUTATION_STRENGTH * uniform(-1, 1)` and clamp into `[0.1, 3.0]`;
fields whose coin fails pass through. -/
def mutate_gene (g : GielisGene) (r : GeneMutDraws) : GielisGene :=
  { m1 := if r.u_m1 < MUTATION_RATE then max 3 (min 12 (g.m1 + r.d_m1)) else g.m1
    m2 := if r.u_m2 < MUTATION_RATE then max 3 (min 12 (g.m2 + r.d_m2)) else g.m2
    n1 := if r.u_n1 < MUTATION_RATE then
        max 0.1 (min 3.0 (g.n1 + g.n1 * MUTATION_STRENGTH * r.e_n1)) else g.n1
    n2 := if r.u_n2 < MUTATION_RATE then
        max 0.1 (min 3.0 (g.n2 + g.n2 * MUTATION_STRENGTH * r.e_n2)) else g.n2
    n3 := if r.u_n3 < MUTATION_RATE then
        max 0.1 (min 3.0 (g.n3 + g.n3 * MUTATION_STRENGTH * r.e_n3)) else g.n3
    n1b := if r.u_n1b < MUTATION_RATE then
        max 0.1 (min 3.0 (g.n1b + g.n1b * MUTATION_STRENGTH * r.e_n1b)) else g.n1b
    n2b := if r.u_n2b < MUTATION_RATE then
        max 0.1 (min 3.0 (g.n2b + g.n2b * MUTATION_STRENGTH * r.e_n2b)) else g.n2b
    n3b := if r.u_n3b < MUTATION_RATE then
        max 0.1 (min 3.0 (g.n3b + g.n3b * MUTATION_STRENGTH * r.e_n3b)) else g.n3b }

/-- Draws consumed by one call of `mutate_dna`: one block per Gielis gene,
then for `fractal_levels` / `fractal_children` a coin and a
`random.choice([-1, 0, 1])` shift, and for the floats `scale_factor` /
`speed` a coin and a `random.uniform(-1, 1)` factor. -/
structure DnaMutDraws where
  g1 : GeneMutDraws
  g2 : GeneMutDraws
  g3 : GeneMutDraws
  u_levels : ℚ
  d_levels : ℤ
  u_children : ℚ
  d_children : ℤ
  u_scale : ℚ
  e_scale : ℚ
  u_speed : ℚ
  e_speed : ℚ
deriving DecidableEq

/-- Python `mutate_dna(dna)`. -/
def mutate_dna (dna : DNA) (r : DnaMutDraws) : DNA :=
  { lajfi_1 := mutate_gene dna.lajfi_1 r.g1
    lajfi_2 := mutate_gene dna.lajfi_2 r.g2
    lajfi_3 := mutate_gene dna.lajfi_3 r.g3
    fractal_levels :=
      if r.u_levels < MUTATION_RATE then
        max MIN_FRACTAL_LEVELS
          (min MAX_FRACTAL_LEVELS (dna.fractal_levels + r.d_levels))
      else dna.fractal_levels
    fractal_children :=
      if r.u_children < MUTATION_RATE then
        max MIN_CHILDREN (min MAX_CHILDREN (dna.fractal_children + r.d_children))
      else dna.fractal_children
    scale_factor :=
      if r.u_scale < MUTATION_RATE then
        max 0.1 (dna.scale_factor +
          dna.scale_factor * MUTATION_STRENGTH * r.e_scale)
      else dna.scale_factor
    speed :=
      if r.u_speed < MUTATION_RATE then
        max 0.1 (dna.speed + dna.speed * MUTATION_STRENGTH * r.e_speed)
      else dna.speed }

/-! ## gielis.py

`gielis_r` calls `math.cos`, `math.sin` and float exponentiation, so it is
embedded over the reals, with `x ** y` as `Real.rpow`. -/

/-- Python `gielis_r(angle, m, n1, n2, n3)`. -/
noncomputable def gielis_r (angle m n1 n2 n3 : ℝ) : ℝ :=
  let n1' : ℝ := if |n1| < 0.001 then 0.001 else n1
  let t : ℝ := m * angle / 4.0
  let term1 : ℝ := Real.rpow |Real.cos t| n2
  let term2 : ℝ := Real.rpow |Real.sin t| n3
  let denom : ℝ := term1 + term2
  if denom < 0.0001 then 1.0
  else max 0.1 (min 5.0 (Real.rpow denom (-1.0 / n1')))

/-! ## World positions

`TriadCreature.position` / `Plant.position` are `[x, y, z]` float lists;
`mathutils.Vector` arithmetic and `math.sqrt` force real coordinates. -/

structure Vec3 where
  x : ℝ
  y : ℝ
  z : ℝ

/-- Python `distance_sq(pos1, pos2)` from world.py. -/
noncomputable def distance_sq (pos1 pos2 : Vec3) : ℝ :=
  (pos1.x - pos2.x) ^ 2 + (pos1.y - pos2.y) ^ 2 + (pos1.z - pos2.z) ^ 2

/-! ## creature.py -/

structure TriadCreature where
  id : ℕ
  dna : DNA
  position : Vec3
  energy : ℚ
  age : ℕ
  generation : ℕ
  parents : List ℕ
  children_count : ℕ
  meals_eaten : ℕ
  mating_cooldown : ℤ

/-- Python `TriadCreature.__init__` with explicit dna, position and parents:
bumps the class counter and takes the new counter value as id (names are
modelled by ids).  Returns the creature and the new counter. -/
def TriadCreature.create (counter : ℕ) (dna : DNA) (position : Vec3)
    (parents : List ℕ) : TriadCreature × ℕ :=
  ({ id := counter + 1, dna := dna, position := position
     energy := START_ENERGY, age := 0, generation := 1, parents := parents
     children_count := 0, meals_eaten := 0, mating_cooldown := 0 },
   counter + 1)

/-- Python `update(self)`: age, pay the idle cost, decrease the cooldown when it is
strictly positive. -/
def TriadCreature.update (c : TriadCreature) : TriadCreature :=
  { c with age := c.age + 1, energy := c.energy - IDLE_COST
           mating_cooldown :=
             if 0 < c.mating_cooldown then c.mating_cooldown - 1
             else c.mating_cooldown }

open Classical in
/-- Python `_clamp_to_world(self)`: x and y clamp to the square of half-width
`WORLD_SIZE / 2 - 2`, z to the band `[0.5, 3]`. -/
noncomputable def TriadCreature.clamp_to_world (c : TriadCreature) :
    TriadCreature :=
  let boundary : ℝ := WORLD_SIZE / 2 - 2
  let px := if boundary < c.position.x then boundary
            else if c.position.x < -boundary then -boundary else c.position.x
  let py := if boundary < c.position.y then boundary
            else if c.position.y < -boundary then -boundary else c.position.y
  let pz := if c.position.z < 0.5 then 0.5
            else if 3 < c.position.z then 3 else c.position.z
  { c with position := { x := px, y := py, z := pz } }

open Classical in
/-- Python `move_towards(self, target_pos)`: direction to the target with its z
component attenuated by 0.2; when its length exceeds 0.1 the normalized
direction scaled by the genome speed is added and the movement cost is
paid; finally clamp to the world. -/
noncomputable def TriadCreature.move_towards (c : TriadCreature)
    (target : Vec3) : TriadCreature :=
  let dx := target.x - c.position.x
  let dy := target.y - c.position.y
  let dz := (target.z - c.position.z) * 0.2
  let len := Real.sqrt (dx ^ 2 + dy ^ 2 + dz ^ 2)
  let moved :=
    if 0.1 < len then
      { c with
        position :=
          { x := c.position.x + dx / len * (c.dna.speed : ℝ),
            y := c.position.y + dy / len * (c.dna.speed : ℝ),
            z := c.position.z + dz / len * (c.dna.speed : ℝ) },
        energy := c.energy - MOVEMENT_COST }
    else c
  moved.clamp_to_world

open Classical in
/-- Python `move_random(self)`: a random direction (each component
`uniform(-1, 1)`, passed in as the draw `r`) with its z component
attenuated by 0.1; when nonzero, the normalized direction scaled by
`speed * 0.5` is added and half the movement cost is paid; then clamp. -/
noncomputable def TriadCreature.move_random (c : TriadCreature) (r : Vec3) :
    TriadCreature :=
  let dx := r.x
  let dy := r.y
  let dz := r.z * 0.1
  let len := Real.sqrt (dx ^ 2 + dy ^ 2 + dz ^ 2)
  let moved :=
    if 0 < len then
      { c with
        position :=
          { x := c.position.x + dx / len * ((c.dna.speed : ℝ) * 0.5),
            y := c.position.y + dy / len * ((c.dna.speed : ℝ) * 0.5),
            z := c.position.z + dz / len * ((c.dna.speed : ℝ) * 0.5) },
        energy := c.energy - MOVEMENT_COST * 0.5 }
    else c
  moved.clamp_to_world

/-- Python `get_strength(self)`: `energy * 0.5 + fractal_levels * 5 +
fractal_children * 2`. -/
def TriadCreature.get_strength (c : TriadCreature) : ℚ :=
  c.energy * 0.5 + (c.dna.fractal_levels : ℚ) * 5 +
    (c.dna.fractal_children : ℚ) * 2

/-- Python `attack(self, prey)`: pay the attack cost, then compare
`my_strength * uniform(0.8, 1.2)` against `their_strength *
uniform(0.6, 1.4)` (the two multipliers are the draws `am`, `dm`).  Returns
the attacker after paying and whether it won (strict comparison). -/
def TriadCreature.attack (c prey : TriadCreature) (am dm : ℚ) :
    TriadCreature × Bool :=
  let c2 := { c with energy := c.energy - ATTACK_COST }
  let my_strength := c2.get_strength
  let their_strength := prey.get_strength
  (c2, decide (their_strength * dm < my_strength * am))

/-- Python `devour(self, victim)`: gain `KILL_ENERGY_GAIN` of the victim's energy
and count a meal (the returned gained-energy value is only logged). -/
def TriadCreature.devour (c victim : TriadCreature) : TriadCreature :=
  { c with energy := c.energy + victim.energy * KILL_ENERGY_GAIN
           meals_eaten := c.meals_eaten + 1 }

/-- Python `can_mate(self)`. -/
def TriadCreature.can_mate (c : TriadCreature) : Bool :=
  decide (MATING_ENERGY ≤ c.energy) && decide (c.mating_cooldown = 0) &&
    decide (20 < c.age)

/-- Python `is_dead(self)`: energy at or below the starvation threshold. -/
def TriadCreature.is_dead (c : TriadCreature) : Bool :=
  decide (c.energy ≤ STARVATION_THRESHOLD)

/-- Draws consumed by one call of `mate_with`: the crossover draws, the
mutation draws, and the two `random.uniform(-1, 1)` jitters added to the
child's x and y. -/
structure MateDraws where
  comb : CombineDraws
  mutd : DnaMutDraws
  jx : ℝ
  jy : ℝ

/-- Python `mate_with(self, partner)`: both pay the mating cost and enter the
50-tick cooldown; the child's DNA is `mutate_dna(combine_dna(...))`, its
x/y are the parents' midpoints plus jitter and its z is 1.0; its
generation is `max(parent generations) + 1`; both child counts increment.
Returns (self, partner, child, new counter). -/
noncomputable def TriadCreature.mate_with (c partner : TriadCreature)
    (r : MateDraws) (counter : ℕ) :
    TriadCreature × TriadCreature × TriadCreature × ℕ :=
  let c2 := { c with energy := c.energy - MATING_COST, mating_cooldown := 50 }
  let partner2 := { partner with energy := partner.energy - MATING_COST
                                 mating_cooldown := 50 }
  let child_dna := mutate_dna (combine_dna c.dna partner.dna r.comb) r.mutd
  let child_pos : Vec3 :=
    { x := (c.position.x + partner.position.x) / 2 + r.jx
      y := (c.position.y + partner.position.y) / 2 + r.jy
      z := 1.0 }
  let created := TriadCreature.create counter child_dna child_pos
      [c.id, partner.id]
  let child := { created.1 with
                 generation := max c.generation partner.generation + 1 }
  let c3 := { c2 with children_count := c2.children_count + 1 }
  let partner3 := { partner2 with
                    children_count := partner2.children_count + 1 }
  (c3, partner3, child, created.2)

/-! ## plant.py

(`eat(self, plant)` needs the plant type, so `TriadCreature.eat` is defined
right after `Plant`.) -/

structure Plant where
  pid : ℕ
  position : Vec3
  energy : ℚ
  age : ℕ

/-- Python `Plant.update(self)`: age, and every 30 ticks gain 3 energy while
below `1.5 * PLANT_ENERGY`. -/
def Plant.update (p : Plant) : Plant :=
  let age2 := p.age + 1
  if age2 % 30 = 0 ∧ p.energy < PLANT_ENERGY * 1.5 then
    { p with age := age2, energy := p.energy + 3 }
  else { p with age := age2 }

/-- Python `eat(self, plant)`: gain the plant's current energy, count a meal. -/
def TriadCreature.eat (c : TriadCreature) (plant : Plant) : TriadCreature :=
  { c with energy := c.energy + plant.energy
           meals_eaten := c.meals_eaten + 1 }

/-! ## world.py -/

open Classical in
/-- One fold step of `find_nearest`'s minimum search: keep the strictly
smaller squared distance (the running minimum starts at `float('inf')`, so
the first candidate always wins; `none` models the infinite start). -/
noncomputable def find_nearest_step {α : Type} (cpos : Vec3) (pos : α → Vec3)
    (acc : Option (α × ℝ)) (t : α) : Option (α × ℝ) :=
  match acc with
  | none => some (t, distance_sq cpos (pos t))
  | some (b, d) =>
      if distance_sq cpos (pos t) < d then some (t, distance_sq cpos (pos t))
      else some (b, d)

/-- Python `find_nearest(creature, targets)`: nearest target by squared distance
(first of equals wins) together with `math.sqrt` of the minimal squared
distance.  An empty target list returns `(None, float('inf'))`, modelled by
`none`; the source only reads the distance under a truthiness guard on the
target, which the `Option` reproduces. -/
noncomputable def find_nearest {α : Type} (cpos : Vec3) (targets : List α)
    (pos : α → Vec3) : Option (α × ℝ) :=
  (targets.foldl (find_nearest_step cpos pos) none).map
    (fun p => (p.1, Real.sqrt p.2))

/-- The per-step draws of the tick loop: the mate draws in case the
creature reproduces, the random-wander direction, and the two attack
multipliers `uniform(0.8, 1.2)` / `uniform(0.6, 1.4)`. -/
structure StepDraws where
  mate : MateDraws
  wander : Vec3
  am : ℚ
  dm : ℚ

open Classical in
/-- The hungry branch of `tick` (world.py lines 236-262), given the
creature after its `update()` and the two `find_nearest` results.
`target_plant = nearest_plant and (not nearest_other or plant_dist <
other_dist)` and `target_creature = nearest_other and (not nearest_plant
or other_dist <= plant_dist)` make exactly one of the four cases below
fire.  Returns the creature after acting, the eaten plant's id if it ate,
and the killed creature's id if it attacked and won. -/
noncomputable def hungry_act (c : TriadCreature)
    (nearPlant : Option (Plant × ℝ)) (nearOther : Option (TriadCreature × ℝ))
    (o : StepDraws) : TriadCreature × Option ℕ × Option ℕ :=
  match nearPlant, nearOther with
  | none, none => (c.move_random o.wander, none, none)
  | some (p, pd), none =>
      if pd < EAT_RANGE then (c.eat p, some p.pid, none)
      else (c.move_towards p.position, none, none)
  | none, some (x, od) =>
      if od < CANNIBAL_RANGE then
        let atk := c.attack x o.am o.dm
        if atk.2 then (atk.1.devour x, none, some x.id)
        else (atk.1, none, none)
      else (c.move_towards x.position, none, none)
  | some (p, pd), some (x, od) =>
      if pd < od then
        -- target_plant
        if pd < EAT_RANGE then (c.eat p, some p.pid, none)
        else (c.move_towards p.position, none, none)
      else
        -- target_creature (ties land here: other_dist <= plant_dist)
        if od < CANNIBAL_RANGE then
          let atk := c.attack x o.am o.dm
          if atk.2 then (atk.1.devour x, none, some x.id)
          else (atk.1, none, none)
        else (c.move_towards x.position, none, none)

/-- The mutable state threaded through the creature loop of `tick`:
the live creature list (objects mutate in place, so the list entries are
updated), the `TriadCreature.counter` class counter, the global
`generation_record`, and the four pending lists (`killed`, `new_children`,
`eaten_plants`, `dead`), plants/creatures in the pending lists tracked by
id. -/
structure PassState where
  creatures : List TriadCreature
  counter : ℕ
  generation_record : ℕ
  killed : List ℕ
  new_children : List TriadCreature
  eaten_plants : List ℕ
  dead : List ℕ

open Classical in
/-- One iteration of `for c in creatures` in `tick` (world.py 190-266).
`view` is the list the iteration reads its creatures from and `kv` the
killed-list used for the skip and for filtering `other_creatures`: the
real loop passes the live `s.creatures` and `s.killed` (objects mutate in
place mid-pass), while the snapshot semantics of the spec passes the
pre-tick list and an empty kill list.  Effects always apply to `s`. -/
noncomputable def tick_step (view : List TriadCreature) (kv : List ℕ)
    (plants : List Plant) (o : ℕ → StepDraws) (s : PassState) (i : ℕ) :
    PassState :=
  match view.get? i with
  | none => s
  | some c0 =>
    if c0.id ∈ kv then s
    else
      let c1 := c0.update
      let nearPlant := find_nearest c1.position plants Plant.position
      let others := view.filter
          (fun x => decide (x.id ≠ c0.id) && decide (x.id ∉ kv))
      let nearOther := find_nearest c1.position others TriadCreature.position
      if SATISFIED_ENERGY ≤ c1.energy then
        -- satiated: try to mate
        let can_breed := c1.can_mate &&
          decide ((s.creatures.length : ℤ) + (s.new_children.length : ℤ) -
            (s.killed.length : ℤ) ≤ (MAX_CREATURES : ℤ))
        if can_breed then
          let potential_mates := others.filter
              (fun x => x.can_mate && decide (SATISFIED_ENERGY ≤ x.energy))
          match find_nearest c1.position potential_mates
              TriadCreature.position with
          | some (m, dist) =>
              if dist < MATING_RANGE then
                let res := c1.mate_with m (o i).mate s.counter
                let c2 := res.1
                let m2 := res.2.1
                let child := res.2.2.1
                let creatures2 := (s.creatures.set i c2).map
                    (fun x => if x.id = m.id then m2 else x)
                let gr := if s.generation_record < child.generation then
                    child.generation else s.generation_record
                let s2 := { s with
                            creatures := creatures2,
                            counter := res.2.2.2,
                            new_children := s.new_children ++ [child],
                            generation_record := gr }
                if c2.is_dead then { s2 with dead := s2.dead ++ [c2.id] }
                else s2
              else
                let c2 := c1.move_towards m.position
                let s2 := { s with creatures := s.creatures.set i c2 }
                if c2.is_dead then { s2 with dead := s2.dead ++ [c2.id] }
                else s2
          | none =>
              -- unreachable: find_nearest of a nonempty list is some;
              -- the empty-potential-mates case of the source
              let c2 := c1.move_random (o i).wander
              let s2 := { s with creatures := s.creatures.set i c2 }
              if c2.is_dead then { s2 with dead := s2.dead ++ [c2.id] }
              else s2
        else
          let c2 := c1.move_random (o i).wander
          let s2 := { s with creatures := s.creatures.set i c2 }
          if c2.is_dead then { s2 with dead := s2.dead ++ [c2.id] }
          else s2
      else
        -- hungry: eat the nearest
        let acted := hungry_act c1 nearPlant nearOther (o i)
        let c2 := acted.1
        let s2 := { s with
                    creatures := s.creatures.set i c2,
                    eaten_plants := s.eaten_plants ++ acted.2.1.toList,
                    killed := s.killed ++ acted.2.2.toList }
        if c2.is_dead then { s2 with dead := s2.dead ++ [c2.id] }
        else s2

/-- The initial pass state at the top of `tick`'s creature loop. -/
def pass_start (cs : List TriadCreature) (counter gr : ℕ) : PassState :=
  { creatures := cs, counter := counter, generation_record := gr
    killed := [], new_children := [], eaten_plants := [], dead := [] }

/-- The creature loop of `tick` as the source runs it: each iteration
reads the live, mid-pass list and kill marks. -/
noncomputable def decision_pass (cs : List TriadCreature)
    (plants : List Plant) (o : ℕ → StepDraws) (counter gr : ℕ) : PassState :=
  (List.range cs.length).foldl
    (fun s i => tick_step s.creatures s.killed plants o s i)
    (pass_start cs counter gr)

/-- The creature loop as the specification describes it: every decision is
resolved against the pre-tick snapshot of the organisms (and no mid-pass
kill marks), side effects accumulating in the pending lists. -/
noncomputable def snapshot_pass (cs : List TriadCreature)
    (plants : List Plant) (o : ℕ → StepDraws) (counter gr : ℕ) : PassState :=
  (List.range cs.length).foldl
    (fun s i => tick_step cs [] plants o s i)
    (pass_start cs counter gr)

/-- Remove the first list entry with the given id
(`list.remove(obj)` under unique ids; no-op when absent, which the source
only reaches guarded or with the object present). -/
def erase_by_id {α : Type} (idOf : α → ℕ) : List α → ℕ → List α
  | [], _ => []
  | a :: as, v => if idOf a = v then as else a :: erase_by_id idOf as v

/-- The whole-world state owned by the simulator: the module-level
`creatures`, `plants`, `generation_record` globals plus the two id
counters that model Python object identity. -/
structure World where
  creatures : List TriadCreature
  plants : List Plant
  counter : ℕ
  plant_counter : ℕ
  generation_record : ℕ

/-- The draws of one whole `tick`: the per-creature step draws, the spawn
positions of plants topped up this tick, and the random DNA and position
draws of creatures topped up this tick. -/
structure TickDraws where
  step : ℕ → StepDraws
  plant_pos : ℕ → Vec3
  fresh_dna : ℕ → DnaDraws
  fresh_x : ℕ → ℝ
  fresh_y : ℕ → ℝ

/-- Python `spawn_plant()` during top-up: a fresh plant at the drawn position with
`PLANT_ENERGY` and age 0 (ids continue the plant counter). -/
def spawn_plant (pc : ℕ) (pos : Vec3) : Plant :=
  { pid := pc + 1, position := pos, energy := PLANT_ENERGY, age := 0 }

/-- The plant phase of `tick`: update every plant, then top the plant
population up to `MAX_PLANTS` with fresh spawns. -/
def tick_plants (w : World) (o : TickDraws) : List Plant :=
  w.plants.map Plant.update ++
    (List.range (MAX_PLANTS - (w.plants.map Plant.update).length)).map
      (fun k => spawn_plant (w.plant_counter + k) (o.plant_pos k))

/-- The creature loop of `tick` run over the post-update plants. -/
noncomputable def tick_pass (w : World) (o : TickDraws) : PassState :=
  decision_pass w.creatures (tick_plants w o) o.step w.counter
    w.generation_record

/-- Python `for victim in killed: if victim not in dead: dead.append(victim)`. -/
def merge_dead (s : PassState) : List ℕ :=
  s.killed.foldl (fun d v => if v ∈ d then d else d ++ [v]) s.dead

/-- After the pass: append the newborn children to the live list, then
remove every dead creature (`creatures.remove(c)` under unique ids). -/
def live_after (s : PassState) : List TriadCreature :=
  (merge_dead s).foldl (erase_by_id TriadCreature.id)
    (s.creatures ++ s.new_children)

/-- Python `tick()` (world.py 161-307) without its I/O: update plants, top the
plants up to `MAX_PLANTS`, run the creature loop, merge `killed` into
`dead` (skipping duplicates), remove eaten plants, append the newborn
children, remove the dead, and top the creatures up to `MAX_CREATURES`
with fresh random ones.  Export and logging touch no simulation state. -/
noncomputable def tick (w : World) (o : TickDraws) : World :=
  let s := tick_pass w o
  let creatures3 := live_after s
  { creatures := creatures3 ++
      (List.range (MAX_CREATURES - creatures3.length)).map
        (fun k => (TriadCreature.create (s.counter + k)
          (random_dna (o.fresh_dna k))
          { x := o.fresh_x k, y := o.fresh_y k, z := 1.0 } []).1)
    plants := s.eaten_plants.foldl (erase_by_id Plant.pid) (tick_plants w o)
    counter := s.counter + (MAX_CREATURES - creatures3.length)
    plant_counter := w.plant_counter +
      (MAX_PLANTS - (w.plants.map Plant.update).length)
    generation_record := s.generation_record }

/-! ## Concrete fixtures used by witnesses and counterexamples -/

def gene0 : GielisGene :=
  { m1 := 5, m2 := 5, n1 := 0.5, n2 := 1, n3 := 1
    n1b := 0.5, n2b := 1, n3b := 1 }

def dna0 : DNA :=
  { lajfi_1 := gene0, lajfi_2 := gene0, lajfi_3 := gene0
    fractal_levels := 2, fractal_children := 2
    scale_factor := 0.5, speed := 0.3 }

/-- Mutation draws whose coins all fail (0.9 is a legal `random.random()`
value and `0.9 < MUTATION_RATE` is false), so every field passes through. -/
def gmd0 : GeneMutDraws :=
  { u_m1 := 0.9, d_m1 := 0, u_m2 := 0.9, d_m2 := 0
    u_n1 := 0.9, e_n1 := 0, u_n2 := 0.9, e_n2 := 0
    u_n3 := 0.9, e_n3 := 0, u_n1b := 0.9, e_n1b := 0
    u_n2b := 0.9, e_n2b := 0, u_n3b := 0.9, e_n3b := 0 }

def dmd0 : DnaMutDraws :=
  { g1 := gmd0, g2 := gmd0, g3 := gmd0
    u_levels := 0.9, d_levels := 0, u_children := 0.9, d_children := 0
    u_scale := 0.9, e_scale := 0, u_speed := 0.9, e_speed := 0 }

def cd0 : CombineDraws :=
  { u1 := 0.1, u2 := 0.1, u3 := 0.1, pick_levels := true
    pick_children := true, mix_scale := 0.5, mix_speed := 0.5 }

def md0 : MateDraws := { comb := cd0, mutd := dmd0, jx := 0, jy := 0 }

def vec0 : Vec3 := { x := 0, y := 0, z := 1 }

def creature0 : TriadCreature :=
  { id := 1, dna := dna0, position := vec0, energy := 80, age := 30
    generation := 1, parents := [], children_count := 0, meals_eaten := 0
    mating_cooldown := 0 }

def creature1 : TriadCreature :=
  { id := 2, dna := dna0, position := vec0, energy := 80, age := 30
    generation := 1, parents := [], children_count := 0, meals_eaten := 0
    mating_cooldown := 0 }

def plant0 : Plant :=
  { pid := 1, position := vec0, energy := 25, age := 0 }

/-! ## C1 — the superformula radius is total and lands in [0.1, 5.0] -/

/-- C1: for every finite angle and finite parameters `m, n1, n2, n3` the
superformula radius `gielis_r` returns a value in the closed interval
`[0.1, 5.0]`; as a Lean function over the reals it is total by
construction (near-zero `n1` is substituted by the minimum epsilon 0.001
and a summed term below 0.0001 yields the neutral radius 1.0 instead of a
division). -/
theorem c1_gielis_radius_bounded (angle m n1 n2 n3 : ℝ) :
    0.1 ≤ gielis_r angle m n1 n2 n3 ∧ gielis_r angle m n1 n2 n3 ≤ 5.0 := by
  unfold gielis_r
  refine ⟨?_, ?_⟩ <;> dsimp only <;> split
  · norm_num
  · exact le_max_left _ _
  · norm_num
  · exact max_le (by norm_num) (min_le_left _ _)

/-! ## C5 — crossover inherits whole shape genes from one parent -/

/-- C5: for every pair of parent genomes, every shape gene of the
crossover child is the entire corresponding gene of exactly one parent —
all eight fields together, never a field-by-field blend — and the parent
is selected by that gene's own `random.random() < 0.5` coin (`u1`, `u2`,
`u3` are uniform on `[0, 1)`, so each parent is chosen with probability
1/2, independently per gene). -/
theorem c5_crossover_whole_gene (d1 d2 : DNA) (r : CombineDraws) :
    ((combine_dna d1 d2 r).lajfi_1 =
       if r.u1 < 0.5 then d1.lajfi_1 else d2.lajfi_1) ∧
    ((combine_dna d1 d2 r).lajfi_2 =
       if r.u2 < 0.5 then d1.lajfi_2 else d2.lajfi_2) ∧
    ((combine_dna d1 d2 r).lajfi_3 =
       if r.u3 < 0.5 then d1.lajfi_3 else d2.lajfi_3) ∧
    ((combine_dna d1 d2 r).lajfi_1 = d1.lajfi_1 ∨
       (combine_dna d1 d2 r).lajfi_1 = d2.lajfi_1) ∧
    ((combine_dna d1 d2 r).lajfi_2 = d1.lajfi_2 ∨
       (combine_dna d1 d2 r).lajfi_2 = d2.lajfi_2) ∧
    ((combine_dna d1 d2 r).lajfi_3 = d1.lajfi_3 ∨
       (combine_dna d1 d2 r).lajfi_3 = d2.lajfi_3) := by
  refine ⟨rfl, rfl, rfl, ?_, ?_, ?_⟩ <;> unfold combine_dna <;> dsimp only <;>
    split <;> simp

/-! ## C6 — energy deltas of reproduction and eating -/

/-- C6: after `mate_with(a, b)` both parents' energies decrease by exactly
`MATING_COST`, and after `eat(resource)` the organism's energy increases by
exactly the resource's energy at the moment of consumption while its meal
count increments by one. -/
theorem c6_energy_accounting (a b : TriadCreature) (r : MateDraws) (k : ℕ)
    (c : TriadCreature) (p : Plant) :
    (a.mate_with b r k).1.energy = a.energy - MATING_COST ∧
    (a.mate_with b r k).2.1.energy = b.energy - MATING_COST ∧
    (c.eat p).energy = c.energy + p.energy ∧
    (c.eat p).meals_eaten = c.meals_eaten + 1 :=
  ⟨rfl, rfl, rfl, rfl⟩

/-! ## C7 — combat formula -/

/-- C7: the attacker always pays `ATTACK_COST` whatever the outcome; each
side's strength is `0.5 * energy + 5 * fractal_levels +
2 * fractal_children` (the attacker's evaluated on its post-cost energy,
as the source computes it after the deduction); the rolls multiply the
strengths by the drawn `uniform(0.8, 1.2)` / `uniform(0.6, 1.4)`
multipliers, and the attacker wins iff its roll strictly exceeds the
defender's. -/
theorem c7_attack_formula (a prey : TriadCreature) (am dm : ℚ) :
    (a.attack prey am dm).1.energy = a.energy - ATTACK_COST ∧
    ((a.attack prey am dm).2 = true ↔
      prey.get_strength * dm < (a.attack prey am dm).1.get_strength * am) ∧
    a.get_strength = a.energy * 0.5 + (a.dna.fractal_levels : ℚ) * 5 +
      (a.dna.fractal_children : ℚ) * 2 := by
  refine ⟨rfl, ?_, rfl⟩
  unfold TriadCreature.attack
  dsimp only
  exact decide_eq_true_iff

/-! ## C8 — reproduction effects -/

/-- C8 (amended): after `mate_with(a, b)` the child's genome is
`mutate_dna(combine_dna(a.dna, b.dna))`, the child's x and y are the
parents' midpoints plus the `uniform(-1, 1)` jitter draws, the child's z
is the fixed constant 1.0 (not a parents' midpoint), the child's
generation is `max(a.generation, b.generation) + 1`, both parents enter
the fixed cooldown of 50 ticks (positive), and both parents' child counts
increment by one. -/
theorem c8_reproduction_effects (a b : TriadCreature) (r : MateDraws)
    (k : ℕ) :
    (a.mate_with b r k).2.2.1.dna =
      mutate_dna (combine_dna a.dna b.dna r.comb) r.mutd ∧
    (a.mate_with b r k).2.2.1.position.x =
      (a.position.x + b.position.x) / 2 + r.jx ∧
    (a.mate_with b r k).2.2.1.position.y =
      (a.position.y + b.position.y) / 2 + r.jy ∧
    (a.mate_with b r k).2.2.1.position.z = 1.0 ∧
    (a.mate_with b r k).2.2.1.generation =
      max a.generation b.generation + 1 ∧
    (a.mate_with b r k).1.mating_cooldown = 50 ∧
    (a.mate_with b r k).2.1.mating_cooldown = 50 ∧ (0 : ℤ) < 50 ∧
    (a.mate_with b r k).1.children_count = a.children_count + 1 ∧
    (a.mate_with b r k).2.1.children_count = b.children_count + 1 :=
  ⟨rfl, rfl, rfl, rfl, rfl, rfl, rfl, by norm_num, rfl, rfl⟩

/-- Two parents sitting at the top of the legal height band `z = 3`
(the world clamp allows z up to 3). -/
def creature_hi_a : TriadCreature :=
  { creature0 with position := { x := 0, y := 0, z := 3 } }

def creature_hi_b : TriadCreature :=
  { creature1 with position := { x := 0, y := 0, z := 3 } }

/-- C8 counterexample: the claim says the child's position is the midpoint
of the parents' positions plus small random jitter; but for parents both
at height `z = 3` the child's z is 1.0, a full 2.0 away from the midpoint
3.0 — beyond any `uniform(-1, 1)` jitter — because `mate_with` pins the
child's z to the constant 1.0. -/
theorem c8_z_counterexample :
    (creature_hi_a.mate_with creature_hi_b md0 10).2.2.1.position.z = 1 ∧
    (creature_hi_a.position.z + creature_hi_b.position.z) / 2 = 3 ∧
    ¬ |(creature_hi_a.mate_with creature_hi_b md0 10).2.2.1.position.z -
        (creature_hi_a.position.z + creature_hi_b.position.z) / 2| ≤ 1 := by
  have h1 : (creature_hi_a.mate_with creature_hi_b md0 10).2.2.1.position.z
      = (1.0 : ℝ) := rfl
  have h2 : creature_hi_a.position.z = (3 : ℝ) := rfl
  have h3 : creature_hi_b.position.z = (3 : ℝ) := rfl
  refine ⟨?_, ?_, ?_⟩
  · rw [h1]; norm_num
  · rw [h2, h3]; norm_num
  · rw [h1, h2, h3]; norm_num

/-! ## C10 — the mating cooldown never goes negative -/

/-- C10: the mating cooldown starts at 0 on creation, the per-tick update
decrements it only when strictly positive, reproduction sets it to the
fixed positive 50 on both parents, and no other operation (eating,
attacking, devouring, moving) touches it — so `cooldown ≥ 0` is preserved
by every operation. -/
theorem c10_cooldown_nonneg (c a b prey victim : TriadCreature)
    (dna : DNA) (pos tgt w : Vec3) (ps : List ℕ) (r : MateDraws)
    (k n : ℕ) (am dm : ℚ) (p : Plant)
    (h : 0 ≤ c.mating_cooldown) :
    (TriadCreature.create n dna pos ps).1.mating_cooldown = 0 ∧
    0 ≤ c.update.mating_cooldown ∧
    (a.mate_with b r k).1.mating_cooldown = 50 ∧
    (a.mate_with b r k).2.1.mating_cooldown = 50 ∧
    (a.mate_with b r k).2.2.1.mating_cooldown = 0 ∧
    (c.eat p).mating_cooldown = c.mating_cooldown ∧
    (a.attack prey am dm).1.mating_cooldown = a.mating_cooldown ∧
    (c.devour victim).mating_cooldown = c.mating_cooldown ∧
    (c.move_towards tgt).mating_cooldown = c.mating_cooldown ∧
    (c.move_random w).mating_cooldown = c.mating_cooldown := by
  refine ⟨rfl, ?_, rfl, rfl, rfl, rfl, rfl, rfl, ?_, ?_⟩
  · unfold TriadCreature.update
    dsimp only
    split
    · omega
    · exact h
  · unfold TriadCreature.move_towards TriadCreature.clamp_to_world
    dsimp only
    split <;> rfl
  · unfold TriadCreature.move_random TriadCreature.clamp_to_world
    dsimp only
    split <;> rfl

/-- C10 witness: the invariant theorem applied at a concrete creature with
cooldown 0. -/
theorem c10_cooldown_nonneg_witness :
    0 ≤ creature0.update.mating_cooldown :=
  (c10_cooldown_nonneg creature0 creature0 creature1 creature1 creature1
    dna0 vec0 vec0 vec0 [] md0 5 7 1 1 plant0 (by decide)).2.1

/-! ## C4 — genome field ranges -/

/-- The hull of the per-field ranges a gene field can actually inhabit:
the union of the `random_gielis_gene` sampling ranges and the mutation
clamp ranges (`m1 ∈ [3, 14]`, `m2 ∈ [2, 12]`, floats in `[0.08, 3.5]`). -/
def GeneRanges (g : GielisGene) : Prop :=
  3 ≤ g.m1 ∧ g.m1 ≤ 14 ∧ 2 ≤ g.m2 ∧ g.m2 ≤ 12 ∧
  0.08 ≤ g.n1 ∧ g.n1 ≤ 3.5 ∧ 0.08 ≤ g.n2 ∧ g.n2 ≤ 3.5 ∧
  0.08 ≤ g.n3 ∧ g.n3 ≤ 3.5 ∧ 0.08 ≤ g.n1b ∧ g.n1b ≤ 3.5 ∧
  0.08 ≤ g.n2b ∧ g.n2b ≤ 3.5 ∧ 0.08 ≤ g.n3b ∧ g.n3b ≤ 3.5

instance (g : GielisGene) : Decidable (GeneRanges g) := by
  unfold GeneRanges; infer_instance

/-- The ranges the whole DNA dictionary preserves across random
generation, crossover and mutation: gene hulls, the configured fractal
bounds, and the 0.1 floor of the mutated floats (their sampling ranges
start above 0.1, and mutation has no upper clamp for them). -/
def DnaRanges (d : DNA) : Prop :=
  GeneRanges d.lajfi_1 ∧ GeneRanges d.lajfi_2 ∧ GeneRanges d.lajfi_3 ∧
  MIN_FRACTAL_LEVELS ≤ d.fractal_levels ∧
  d.fractal_levels ≤ MAX_FRACTAL_LEVELS ∧
  MIN_CHILDREN ≤ d.fractal_children ∧ d.fractal_children ≤ MAX_CHILDREN ∧
  0.1 ≤ d.scale_factor ∧ 0.1 ≤ d.speed

instance (d : DNA) : Decidable (DnaRanges d) := by
  unfold DnaRanges; infer_instance

lemma if_le_then_le {α : Type} [LE α] {P : Prop} [Decidable P] {a b c : α}
    (h1 : P → c ≤ a) (h2 : ¬P → c ≤ b) : c ≤ if P then a else b := by
  split
  next h => exact h1 h
  next h => exact h2 h

lemma le_if_then_le {α : Type} [LE α] {P : Prop} [Decidable P] {a b c : α}
    (h1 : P → a ≤ c) (h2 : ¬P → b ≤ c) : (if P then a else b) ≤ c := by
  split
  next h => exact h1 h
  next h => exact h2 h

lemma clamp_sym_mem (a : ℤ) :
    3 ≤ max 3 (min 12 a) ∧ max 3 (min 12 a) ≤ 12 :=
  ⟨le_max_left _ _, max_le (by norm_num) (min_le_left _ _)⟩

lemma clamp_curv_mem (v : ℚ) :
    (0.1 : ℚ) ≤ max 0.1 (min 3.0 v) ∧ max 0.1 (min 3.0 v) ≤ 3.0 :=
  ⟨le_max_left _ _, max_le (by norm_num) (min_le_left _ _)⟩

lemma curv_hull_lo (v : ℚ) : (0.08 : ℚ) ≤ max 0.1 (min 3.0 v) :=
  le_trans (by norm_num) (le_max_left _ _)

lemma curv_hull_hi (v : ℚ) : max 0.1 (min 3.0 v) ≤ (3.5 : ℚ) :=
  le_trans (clamp_curv_mem _).2 (by norm_num)

lemma mutate_gene_ranges (g : GielisGene) (r : GeneMutDraws)
    (h : GeneRanges g) : GeneRanges (mutate_gene g r) := by
  obtain ⟨a1, a2, a3, a4, b1, b2, b3, b4, b5, b6, b7, b8, b9, b10, b11, b12⟩
    := h
  unfold GeneRanges mutate_gene
  dsimp only
  refine ⟨?_, ?_, ?_, ?_, ?_, ?_, ?_, ?_, ?_, ?_, ?_, ?_, ?_, ?_, ?_, ?_⟩
  · exact (if_le_then_le (fun _ => le_max_left _ _) (fun _ => a1))
  · exact (le_if_then_le (fun _ => le_trans (clamp_sym_mem _).2 (by norm_num))
      (fun _ => a2))
  · exact (if_le_then_le (fun _ => le_trans (by norm_num) (le_max_left _ _))
      (fun _ => a3))
  · exact (le_if_then_le (fun _ => (clamp_sym_mem _).2) (fun _ => a4))
  · exact (if_le_then_le (fun _ => curv_hull_lo _) (fun _ => b1))
  · exact (le_if_then_le (fun _ => curv_hull_hi _) (fun _ => b2))
  · exact (if_le_then_le (fun _ => curv_hull_lo _) (fun _ => b3))
  · exact (le_if_then_le (fun _ => curv_hull_hi _) (fun _ => b4))
  · exact (if_le_then_le (fun _ => curv_hull_lo _) (fun _ => b5))
  · exact (le_if_then_le (fun _ => curv_hull_hi _) (fun _ => b6))
  · exact (if_le_then_le (fun _ => curv_hull_lo _) (fun _ => b7))
  · exact (le_if_then_le (fun _ => curv_hull_hi _) (fun _ => b8))
  · exact (if_le_then_le (fun _ => curv_hull_lo _) (fun _ => b9))
  · exact (le_if_then_le (fun _ => curv_hull_hi _) (fun _ => b10))
  · exact (if_le_then_le (fun _ => curv_hull_lo _) (fun _ => b11))
  · exact (le_if_then_le (fun _ => curv_hull_hi _) (fun _ => b12))

lemma blend_floor (s1 s2 mix : ℚ) (h1 : 0.1 ≤ s1) (h2 : 0.1 ≤ s2)
    (hm0 : 0 ≤ mix) (hm1 : mix ≤ 1) : (0.1 : ℚ) ≤ s1 * mix + s2 * (1 - mix) := by
  nlinarith [mul_le_mul_of_nonneg_right h1 hm0,
    mul_le_mul_of_nonneg_right h2 (sub_nonneg.2 hm1)]

lemma random_gielis_gene_ranges (r : GeneDraws) (h : GeneDrawsOk r) :
    GeneRanges (random_gielis_gene r) := by
  obtain ⟨a1, a2, a3, a4, b1, b2, b3, b4, b5, b6, b7, b8, b9, b10, b11, b12⟩
    := h
  unfold GeneRanges random_gielis_gene
  refine ⟨a1, le_trans a2 (by norm_num), a3, a4, ?_, ?_, ?_, ?_, ?_, ?_, ?_,
    ?_, ?_, ?_, ?_, ?_⟩ <;> linarith

lemma random_dna_ranges (r : DnaDraws) (h : DnaDrawsOk r) :
    DnaRanges (random_dna r) := by
  obtain ⟨h1, h2, h3, h4, h5, h6, h7, h8, h9, h10, h11⟩ := h
  exact ⟨random_gielis_gene_ranges _ h1, random_gielis_gene_ranges _ h2,
    random_gielis_gene_ranges _ h3, h4, h5, h6, h7,
    le_trans (by norm_num) h8, le_trans (by norm_num) h10⟩

lemma combine_dna_ranges (d1 d2 : DNA) (rc : CombineDraws)
    (h1 : DnaRanges d1) (h2 : DnaRanges d2)
    (hs0 : 0 ≤ rc.mix_scale) (hs1 : rc.mix_scale ≤ 1)
    (hp0 : 0 ≤ rc.mix_speed) (hp1 : rc.mix_speed ≤ 1) :
    DnaRanges (combine_dna d1 d2 rc) := by
  obtain ⟨g1, g2, g3, f1, f2, f3, f4, sc, sp⟩ := h1
  obtain ⟨g1', g2', g3', f1', f2', f3', f4', sc', sp'⟩ := h2
  unfold DnaRanges combine_dna
  dsimp only
  refine ⟨?_, ?_, ?_, ?_, ?_, ?_, ?_, ?_, ?_⟩ <;>
    first
      | (split <;> assumption)
      | exact blend_floor _ _ _ sc sc' hs0 hs1
      | exact blend_floor _ _ _ sp sp' hp0 hp1

lemma mutate_dna_ranges (d : DNA) (rm : DnaMutDraws) (h : DnaRanges d) :
    DnaRanges (mutate_dna d rm) := by
  obtain ⟨g1, g2, g3, f1, f2, f3, f4, sc, sp⟩ := h
  unfold DnaRanges mutate_dna
  dsimp only
  refine ⟨mutate_gene_ranges _ _ g1, mutate_gene_ranges _ _ g2,
    mutate_gene_ranges _ _ g3, ?_, ?_, ?_, ?_, ?_, ?_⟩
  · exact if_le_then_le (fun _ => le_max_left _ _) (fun _ => f1)
  · exact le_if_then_le
      (fun _ => max_le (by norm_num [MIN_FRACTAL_LEVELS, MAX_FRACTAL_LEVELS])
        (min_le_left _ _)) (fun _ => f2)
  · exact if_le_then_le (fun _ => le_max_left _ _) (fun _ => f3)
  · exact le_if_then_le
      (fun _ => max_le (by norm_num [MIN_CHILDREN, MAX_CHILDREN])
        (min_le_left _ _)) (fun _ => f4)
  · exact if_le_then_le (fun _ => le_max_left _ _) (fun _ => sc)
  · exact if_le_then_le (fun _ => le_max_left _ _) (fun _ => sp)

/-- C4 (amended): outputs of random generation lie in their sampling
ranges; crossover preserves the per-field range hull (whole genes come
from one parent, integer traits from one parent, float traits interpolate
with a mix in `[0.3, 0.7] ⊆ [0, 1]`); mutation preserves the hull, and a
field whose mutation coin fires is clamped — symmetry into `[3, 12]`,
gene curvature into `[0.1, 3.0]`.  Unmutated fields pass through, so the
ranges guaranteed after mutation are only the hulls `m1 ∈ [3, 14]`,
`m2 ∈ [2, 12]`, curvature `∈ [0.08, 3.5]`, and `scale_factor` / `speed`
are only bounded below by 0.1. -/
theorem c4_genome_field_ranges :
    (∀ r : DnaDraws, DnaDrawsOk r → DnaRanges (random_dna r)) ∧
    (∀ (d1 d2 : DNA) (rc : CombineDraws), DnaRanges d1 → DnaRanges d2 →
      0.3 ≤ rc.mix_scale → rc.mix_scale ≤ 0.7 →
      0.3 ≤ rc.mix_speed → rc.mix_speed ≤ 0.7 →
      DnaRanges (combine_dna d1 d2 rc)) ∧
    (∀ (d : DNA) (rm : DnaMutDraws), DnaRanges d →
      DnaRanges (mutate_dna d rm)) ∧
    (∀ (g : GielisGene) (r : GeneMutDraws), r.u_m1 < MUTATION_RATE →
      3 ≤ (mutate_gene g r).m1 ∧ (mutate_gene g r).m1 ≤ 12) ∧
    (∀ (g : GielisGene) (r : GeneMutDraws), r.u_m2 < MUTATION_RATE →
      3 ≤ (mutate_gene g r).m2 ∧ (mutate_gene g r).m2 ≤ 12) ∧
    (∀ (g : GielisGene) (r : GeneMutDraws), r.u_n1 < MUTATION_RATE →
      0.1 ≤ (mutate_gene g r).n1 ∧ (mutate_gene g r).n1 ≤ 3.0) ∧
    (∀ (g : GielisGene) (r : GeneMutDraws), r.u_n2 < MUTATION_RATE →
      0.1 ≤ (mutate_gene g r).n2 ∧ (mutate_gene g r).n2 ≤ 3.0) ∧
    (∀ (g : GielisGene) (r : GeneMutDraws), r.u_n3 < MUTATION_RATE →
      0.1 ≤ (mutate_gene g r).n3 ∧ (mutate_gene g r).n3 ≤ 3.0) ∧
    (∀ (g : GielisGene) (r : GeneMutDraws), r.u_n1b < MUTATION_RATE →
      0.1 ≤ (mutate_gene g r).n1b ∧ (mutate_gene g r).n1b ≤ 3.0) ∧
    (∀ (g : GielisGene) (r : GeneMutDraws), r.u_n2b < MUTATION_RATE →
      0.1 ≤ (mutate_gene g r).n2b ∧ (mutate_gene g r).n2b ≤ 3.0) ∧
    (∀ (g : GielisGene) (r : GeneMutDraws), r.u_n3b < MUTATION_RATE →
      0.1 ≤ (mutate_gene g r).n3b ∧ (mutate_gene g r).n3b ≤ 3.0) := by
  refine ⟨random_dna_ranges,
    fun d1 d2 rc h1 h2 hs0 hs1 hp0 hp1 =>
      combine_dna_ranges d1 d2 rc h1 h2 (le_trans (by norm_num) hs0)
        (le_trans hs1 (by norm_num)) (le_trans (by norm_num) hp0)
        (le_trans hp1 (by norm_num)),
    mutate_dna_ranges, ?_, ?_, ?_, ?_, ?_, ?_, ?_, ?_⟩ <;>
  · intro g r hu
    unfold mutate_gene
    dsimp only
    rw [if_pos hu]
    first
      | exact clamp_sym_mem _
      | exact clamp_curv_mem _

/-- Gene draws inside every sampling contract, with `m1` drawn at its
maximum legal value 14 (`random.randint(3, 14)`). -/
def gene0draws : GeneDraws :=
  { rm1 := 14, rm2 := 5, rn1 := 0.5, rn2 := 1, rn3 := 1
    rn1b := 0.5, rn2b := 1, rn3b := 1 }

def dna_draws14 : DnaDraws :=
  { gene1 := gene0draws, gene2 := gene0draws, gene3 := gene0draws
    rlevels := 2, rchildren := 2, rscale := 0.5, rspeed := 0.3 }

lemma dna_draws14_ok : DnaDrawsOk dna_draws14 := by
  unfold DnaDrawsOk GeneDrawsOk dna_draws14 gene0draws
  norm_num [MIN_FRACTAL_LEVELS, MAX_FRACTAL_LEVELS, MIN_CHILDREN,
    MAX_CHILDREN]

/-- C4 witness: the range theorem applied to concrete draws. -/
theorem c4_genome_field_ranges_witness :
    DnaRanges (random_dna dna_draws14) :=
  c4_genome_field_ranges.1 _ dna_draws14_ok

/-- C4 counterexample: a legal random genome can carry `m1 = 14`
(`randint(3, 14)`), and when its mutation coin does not fire (draw 0.9,
rate 0.2) `mutate_dna` passes the 14 through — so a symmetry field of a
shape gene is not in `[3, 12]` after mutation. -/
theorem c4_symmetry_counterexample :
    DnaDrawsOk dna_draws14 ∧
    (mutate_dna (random_dna dna_draws14) dmd0).lajfi_1.m1 = 14 ∧
    ¬ (mutate_dna (random_dna dna_draws14) dmd0).lajfi_1.m1 ≤ 12 := by
  have hcoin : ¬ (dmd0.g1.u_m1 < MUTATION_RATE) := by
    norm_num [dmd0, gmd0, MUTATION_RATE]
  have h1 : (mutate_dna (random_dna dna_draws14) dmd0).lajfi_1.m1 = 14 := by
    unfold mutate_dna mutate_gene random_dna random_gielis_gene
    dsimp only
    rw [if_neg hcoin]
    rfl
  exact ⟨dna_draws14_ok, h1, by rw [h1]; decide⟩

/-! ## C3 — the hungry tie rule -/

/-- Equation lemma: `hungry_act` when both a nearest plant and a nearest
other organism exist. -/
lemma hungry_act_some_some (c x : TriadCreature) (p : Plant) (pd od : ℝ)
    (o : StepDraws) :
    hungry_act c (some (p, pd)) (some (x, od)) o =
      if pd < od then
        if pd < EAT_RANGE then (c.eat p, some p.pid, none)
        else (c.move_towards p.position, none, none)
      else
        if od < CANNIBAL_RANGE then
          if (c.attack x o.am o.dm).2 then
            ((c.attack x o.am o.dm).1.devour x, none, some x.id)
          else ((c.attack x o.am o.dm).1, none, none)
        else (c.move_towards x.position, none, none) := rfl

lemma zero_lt_eat_range : (0 : ℝ) < EAT_RANGE := by norm_num [EAT_RANGE]

lemma zero_lt_cannibal_range : (0 : ℝ) < CANNIBAL_RANGE := by
  norm_num [CANNIBAL_RANGE]

/-- C3 (amended): when a hungry organism's nearest plant and nearest
other organism are at exactly equal distance, the code's tie rule
(`other_dist <= plant_dist` selects the creature) makes it engage the
other organism, not the plant: no plant is eaten, the attack cost is paid
(plus the devoured energy on a win), and on a win the victim is marked
killed.  The `d < EAT_RANGE` hypothesis shows the plant was close enough
to eat, so the tie genuinely favors the organism. -/
theorem c3_tie_prefers_creature (c x : TriadCreature) (p : Plant) (d : ℝ)
    (o : StepDraws) (hcan : d < CANNIBAL_RANGE) (heat : d < EAT_RANGE) :
    (hungry_act c (some (p, d)) (some (x, d)) o).2.1 = none ∧
    (hungry_act c (some (p, d)) (some (x, d)) o).1.energy =
      (if (c.attack x o.am o.dm).2 then
        c.energy - ATTACK_COST + x.energy * KILL_ENERGY_GAIN
       else c.energy - ATTACK_COST) ∧
    ((c.attack x o.am o.dm).2 = true →
      (hungry_act c (some (p, d)) (some (x, d)) o).2.2 = some x.id) := by
  rw [hungry_act_some_some, if_neg (lt_irrefl d), if_pos hcan]
  by_cases hb : (c.attack x o.am o.dm).2 = true
  · rw [if_pos hb, if_pos hb]
    exact ⟨rfl, rfl, fun _ => rfl⟩
  · rw [if_neg hb, if_neg hb]
    exact ⟨rfl, rfl, fun hc => absurd hc hb⟩

/-- Step draws whose attack multipliers make the attacker lose between
equals: `am = 0.8` (the low end of `uniform(0.8, 1.2)`) against `dm = 1.4`
(the high end of `uniform(0.6, 1.4)`). -/
def sd_lose : StepDraws :=
  { mate := md0, wander := vec0, am := 0.8, dm := 1.4 }

/-- C3 witness: the tie theorem applied at distance 0 with both targets in
range. -/
theorem c3_tie_prefers_creature_witness :
    (hungry_act creature0 (some (plant0, 0)) (some (creature1, 0))
      sd_lose).2.1 = none :=
  (c3_tie_prefers_creature creature0 creature1 plant0 0 sd_lose
    zero_lt_cannibal_range zero_lt_eat_range).1

/-- C3 counterexample: a hungry organism with a plant and another organism
both at distance 0 — an exact tie, both within eating and combat range —
does not eat the plant: it attacks the organism and pays the attack cost
(with these rolls the attack fails, so only the cost is paid).  The claim
says ties favor the plant; the code favors the organism. -/
theorem c3_tie_counterexample :
    (hungry_act creature0 (some (plant0, 0)) (some (creature1, 0))
      sd_lose).2.1 = none ∧
    (hungry_act creature0 (some (plant0, 0)) (some (creature1, 0))
      sd_lose).1.energy = creature0.energy - ATTACK_COST ∧
    (hungry_act creature0 (some (plant0, 0)) (some (creature1, 0))
      sd_lose).1.meals_eaten = creature0.meals_eaten := by
  rw [hungry_act_some_some, if_neg (lt_irrefl (0 : ℝ)),
    if_pos zero_lt_cannibal_range]
  have hb : ¬ ((creature0.attack creature1 sd_lose.am sd_lose.dm).2 = true)
      := by
    unfold TriadCreature.attack TriadCreature.get_strength
    dsimp only
    rw [decide_eq_true_iff]
    norm_num [creature0, creature1, dna0, sd_lose, ATTACK_COST]
  rw [if_neg hb]
  exact ⟨rfl, rfl, rfl⟩

/-! ## Identity preservation through the decision pass

The creature loop mutates creatures in place but never adds to or removes
from the live list; these lemmas make that precise. -/

lemma update_id (c : TriadCreature) : c.update.id = c.id := rfl

lemma clamp_to_world_id (c : TriadCreature) : c.clamp_to_world.id = c.id :=
  rfl

lemma move_towards_id (c : TriadCreature) (t : Vec3) :
    (c.move_towards t).id = c.id := by
  unfold TriadCreature.move_towards
  dsimp only
  split <;> rfl

lemma move_random_id (c : TriadCreature) (w : Vec3) :
    (c.move_random w).id = c.id := by
  unfold TriadCreature.move_random
  dsimp only
  split <;> rfl

lemma hungry_act_id (c : TriadCreature) (np : Option (Plant × ℝ))
    (no : Option (TriadCreature × ℝ)) (o : StepDraws) :
    (hungry_act c np no o).1.id = c.id := by
  rcases np with _ | ⟨p, pd⟩ <;> rcases no with _ | ⟨x, od⟩ <;>
    unfold hungry_act <;> dsimp only
  · exact move_random_id c o.wander
  · split
    · split <;> rfl
    · exact move_towards_id _ _
  · split
    · rfl
    · exact move_towards_id _ _
  · split
    · split
      · rfl
      · exact move_towards_id _ _
    · split
      · split <;> rfl
      · exact move_towards_id _ _

/-- The third component of `hungry_act` is either nothing or the id of the
nearest other creature (marked killed after a won attack). -/
lemma hungry_act_killed (c : TriadCreature) (np : Option (Plant × ℝ))
    (no : Option (TriadCreature × ℝ)) (o : StepDraws) :
    (hungry_act c np no o).2.2 = none ∨
      ∃ x d, no = some (x, d) ∧ (hungry_act c np no o).2.2 = some x.id := by
  rcases np with _ | ⟨p, pd⟩ <;> rcases no with _ | ⟨x, od⟩ <;>
    unfold hungry_act <;> dsimp only
  · exact Or.inl rfl
  · split
    · split
      · exact Or.inr ⟨x, od, rfl, rfl⟩
      · exact Or.inl rfl
    · exact Or.inl rfl
  · split
    · exact Or.inl rfl
    · exact Or.inl rfl
  · split
    · split
      · exact Or.inl rfl
      · exact Or.inl rfl
    · split
      · split
        · exact Or.inr ⟨x, od, rfl, rfl⟩
        · exact Or.inl rfl
      · exact Or.inl rfl

lemma mate_with_self_id (c m : TriadCreature) (r : MateDraws) (k : ℕ) :
    (c.mate_with m r k).1.id = c.id := rfl

lemma mate_with_partner_id (c m : TriadCreature) (r : MateDraws) (k : ℕ) :
    (c.mate_with m r k).2.1.id = m.id := rfl

lemma mate_with_child_id (c m : TriadCreature) (r : MateDraws) (k : ℕ) :
    (c.mate_with m r k).2.2.1.id = k + 1 := rfl

lemma mate_with_counter (c m : TriadCreature) (r : MateDraws) (k : ℕ) :
    (c.mate_with m r k).2.2.2 = k + 1 := rfl

/-- Setting index `i` to a creature with the same id as the current entry
does not change the id list. -/
lemma map_id_set_of_get {α : Type} (f : α → ℕ) :
    ∀ (l : List α) (i : ℕ) (a b : α), l.get? i = some b → f a = f b →
      (l.set i a).map f = l.map f
  | [], i, a, b, hget, _ => by simp at hget
  | hd :: tl, 0, a, b, hget, hid => by
      simp only [List.get?] at hget
      cases hget
      simp [hid]
  | hd :: tl, i + 1, a, b, hget, hid => by
      simp only [List.get?] at hget
      simp [map_id_set_of_get f tl i a b hget hid]

/-- Replacing the partner by id with a creature of the same id does not
change the id list. -/
lemma map_id_partner (l : List TriadCreature) (m2 : TriadCreature)
    (mid : ℕ) (h : m2.id = mid) :
    (l.map (fun x => if x.id = mid then m2 else x)).map TriadCreature.id =
      l.map TriadCreature.id := by
  rw [List.map_map]
  refine List.map_congr_left (fun x _ => ?_)
  dsimp only [Function.comp]
  split
  next hx => rw [h, hx]
  next => rfl

/-- One iteration of the live-list loop never changes the roster: the live
creature list after `tick_step` carries exactly the same ids in the same
order. -/
lemma tick_step_ids (kv : List ℕ) (plants : List Plant) (o : ℕ → StepDraws)
    (s : PassState) (i : ℕ) :
    (tick_step s.creatures kv plants o s i).creatures.map TriadCreature.id =
      s.creatures.map TriadCreature.id := by
  unfold tick_step
  cases hget : s.creatures.get? i with
  | none => rfl
  | some c0 =>
    dsimp only
    split
    · rfl
    · split
      · -- satiated
        split
        · -- can_breed
          split
          · -- find_nearest some
            split
            · -- within mating range: mate
              split <;>
                · dsimp only
                  rw [map_id_partner _ _ _ (mate_with_partner_id _ _ _ _)]
                  exact map_id_set_of_get _ _ i _ c0 hget
                    (mate_with_self_id _ _ _ _)
            · -- move towards the mate
              split <;>
                · dsimp only
                  exact map_id_set_of_get _ _ i _ c0 hget
                    (move_towards_id _ _)
          · split <;>
              · dsimp only
                exact map_id_set_of_get _ _ i _ c0 hget
                  (move_random_id _ _)
        · split <;>
            · dsimp only
              exact map_id_set_of_get _ _ i _ c0 hget (move_random_id _ _)
      · -- hungry
        split <;>
          · dsimp only
            exact map_id_set_of_get _ _ i _ c0 hget (hungry_act_id _ _ _ _)

/-- C2 (amended): during the decision pass the live collections are never
structurally modified — the roster of creature ids (and hence the list
length) after the whole pass equals the pre-tick roster, newborn
organisms accumulating only in the pending `new_children` list, eaten
resources only in `eaten_plants` and deaths only in `killed`/`dead`, all
applied to the live lists after the pass; however, organisms mutate in
place during the pass, so a later organism's decision can observe earlier
organisms' same-tick movements, energy changes and kill marks rather than
the pre-tick snapshot (see the counterexample). -/
theorem c2_pending_effects (cs : List TriadCreature) (plants : List Plant)
    (o : ℕ → StepDraws) (counter gr : ℕ) :
    (decision_pass cs plants o counter gr).creatures.map TriadCreature.id =
      cs.map TriadCreature.id ∧
    (decision_pass cs plants o counter gr).creatures.length = cs.length := by
  unfold decision_pass
  suffices h : ∀ (l : List ℕ) (s : PassState),
      s.creatures.map TriadCreature.id = cs.map TriadCreature.id →
      ((l.foldl (fun s i => tick_step s.creatures s.killed plants o s i)
          s).creatures.map TriadCreature.id = cs.map TriadCreature.id) by
    have hmain := h (List.range cs.length) (pass_start cs counter gr) rfl
    refine ⟨hmain, ?_⟩
    have := congrArg List.length hmain
    simpa using this
  intro l
  induction l with
  | nil => intro s hs; exact hs
  | cons i tl ih =>
      intro s hs
      exact ih _ ((tick_step_ids s.killed plants o s i).trans hs)

/-! ## C2 — counterexample world

Two satiated creatures at the same spot, no plants.  In the real pass the
first mates with the second, which drains the second below the satiation
threshold and puts it on cooldown; when the second creature's turn comes
it is hungry and attacks instead of mating, so one child is born.  Under
the spec's snapshot semantics the second creature still sees the pre-tick
world (itself satiated, partner eligible) and mates again: two children. -/

def cs2 : List TriadCreature := [creature0, creature1]

def o2 : ℕ → StepDraws := fun _ => sd_lose

set_option maxHeartbeats 2000000 in
/-- C2 counterexample: with the same pre-tick world and the same draws,
the loop as the source runs it (each decision reads the live, mid-pass
creature states) produces one newborn, while the pass in which every
decision is resolved against the pre-tick snapshot produces two — so a
later organism's decision does not see the same world state as an
earlier one's. -/
theorem c2_snapshot_counterexample :
    (decision_pass cs2 [] o2 2 1).new_children.length = 1 ∧
    (snapshot_pass cs2 [] o2 2 1).new_children.length = 2 ∧
    decision_pass cs2 [] o2 2 1 ≠ snapshot_pass cs2 [] o2 2 1 := by
  have h1 : (decision_pass cs2 [] o2 2 1).new_children.length = 1 := by
    norm_num [decision_pass, pass_start, cs2, o2, sd_lose, md0, tick_step,
      TriadCreature.update, TriadCreature.can_mate, TriadCreature.mate_with,
      TriadCreature.create, TriadCreature.is_dead, TriadCreature.eat,
      TriadCreature.attack, TriadCreature.get_strength,
      TriadCreature.devour, find_nearest, find_nearest_step, distance_sq,
      hungry_act, creature0, creature1, vec0, IDLE_COST, SATISFIED_ENERGY,
      MATING_ENERGY, MATING_COST, MAX_CREATURES, MATING_RANGE,
      CANNIBAL_RANGE, ATTACK_COST, STARVATION_THRESHOLD, KILL_ENERGY_GAIN,
      Real.sqrt_zero, List.range_succ, dna0]
  have h2 : (snapshot_pass cs2 [] o2 2 1).new_children.length = 2 := by
    norm_num [snapshot_pass, pass_start, cs2, o2, sd_lose, md0, tick_step,
      TriadCreature.update, TriadCreature.can_mate, TriadCreature.mate_with,
      TriadCreature.create, TriadCreature.is_dead, TriadCreature.eat,
      TriadCreature.attack, TriadCreature.get_strength,
      TriadCreature.devour, find_nearest, find_nearest_step, distance_sq,
      hungry_act, creature0, creature1, vec0, IDLE_COST, SATISFIED_ENERGY,
      MATING_ENERGY, MATING_COST, MAX_CREATURES, MATING_RANGE,
      CANNIBAL_RANGE, ATTACK_COST, STARVATION_THRESHOLD, KILL_ENERGY_GAIN,
      Real.sqrt_zero, List.range_succ, dna0]
  refine ⟨h1, h2, fun h => ?_⟩
  rw [h, h2] at h1
  exact absurd h1 (by decide)

/-! ## List accounting for the population bound (C9) -/

lemma find_nearest_fold_mem {α : Type} (cpos : Vec3) (pos : α → Vec3) :
    ∀ (l : List α) (acc : Option (α × ℝ)) (b : α) (d : ℝ),
      l.foldl (find_nearest_step cpos pos) acc = some (b, d) →
      (∃ d0, acc = some (b, d0)) ∨ b ∈ l
  | [], acc, b, d, h => Or.inl ⟨d, h⟩
  | t :: tl, acc, b, d, h => by
      rcases find_nearest_fold_mem cpos pos tl (find_nearest_step cpos pos acc t) b d h with
        ⟨d0, hacc⟩ | hm
      · unfold find_nearest_step at hacc
        rcases acc with _ | ⟨a0, da⟩
        · injection hacc with h1
          injection h1 with h1 h2
          rw [← h1]
          exact Or.inr (List.mem_cons_self _ _)
        · dsimp only at hacc
          split at hacc
          · injection hacc with h1
            injection h1 with h1 h2
            rw [← h1]
            exact Or.inr (List.mem_cons_self _ _)
          · exact Or.inl ⟨d0, hacc⟩
      · exact Or.inr (List.mem_cons_of_mem _ hm)

/-- The creature returned by `find_nearest` is a member of the target
list. -/
lemma find_nearest_mem {α : Type} (cpos : Vec3) (l : List α) (pos : α → Vec3)
    (x : α) (d : ℝ) (h : find_nearest cpos l pos = some (x, d)) : x ∈ l := by
  unfold find_nearest at h
  rcases hf : l.foldl (find_nearest_step cpos pos) none with _ | ⟨b, d0⟩
  · rw [hf] at h; cases h
  · rw [hf] at h
    cases h
    rcases find_nearest_fold_mem cpos pos l none b d0 hf with ⟨_, hacc⟩ | hm
    · cases hacc
    · exact hm

/-- Under unique ids, removing by id is filtering by id. -/
lemma erase_by_id_eq_filter {α : Type} (f : α → ℕ) :
    ∀ (l : List α) (v : ℕ), (l.map f).Nodup →
      erase_by_id f l v = l.filter (fun a => decide (f a ≠ v))
  | [], v, _ => rfl
  | a :: tl, v, h => by
      rw [List.map_cons, List.nodup_cons] at h
      unfold erase_by_id
      by_cases hav : f a = v
      · rw [if_pos hav, List.filter_cons_of_neg (by simp [hav])]
        symm
        rw [List.filter_eq_self]
        intro x hx
        have hmem : f x ∈ tl.map f := List.mem_map_of_mem f hx
        simp only [decide_eq_true_eq]
        intro hxv
        exact h.1 (by rw [hxv, ← hav] at hmem; exact hmem)
      · rw [if_neg hav, List.filter_cons_of_pos (by simp [hav]),
          erase_by_id_eq_filter f tl v h.2]

lemma foldl_erase_eq_filter {α : Type} (f : α → ℕ) :
    ∀ (ds : List ℕ) (l : List α), (l.map f).Nodup →
      ds.foldl (erase_by_id f) l = l.filter (fun a => decide (f a ∉ ds))
  | [], l, _ => by
      simp only [List.foldl_nil]
      symm
      rw [List.filter_eq_self]
      intro x _
      simp
  | d :: ds, l, h => by
      rw [List.foldl_cons, erase_by_id_eq_filter f l d h,
        foldl_erase_eq_filter f ds _
          (List.Nodup.sublist (List.Sublist.map f (List.filter_sublist l)) h)]
      rw [List.filter_filter]
      refine List.filter_congr (fun a _ => ?_)
      simp only [List.mem_cons, not_or, decide_eq_true_eq, Bool.and_eq_true,
        decide_not]
      by_cases h1 : f a = d <;> by_cases h2 : f a ∈ ds <;>
        simp [h1, h2]

lemma length_filter_mono_imp {α : Type} (p q : α → Bool) (l : List α)
    (h : ∀ a, p a = true → q a = true) :
    (l.filter p).length ≤ (l.filter q).length :=
  (List.monotone_filter_right l h).length_le

/-- With unique ids on both sides, the members of `l` whose id lies in
`ks` are exactly as many as `ks` itself. -/
lemma length_filter_mem_eq {α : Type} (f : α → ℕ) :
    ∀ (l : List α) (ks : List ℕ), (l.map f).Nodup → ks.Nodup →
      (∀ v ∈ ks, v ∈ l.map f) →
      (l.filter (fun a => decide (f a ∈ ks))).length = ks.length
  | [], ks, _, _, hsub => by
      have : ks = [] := by
        cases ks with
        | nil => rfl
        | cons k ks => exact absurd (hsub k (List.mem_cons_self _ _)) (by simp)
      simp [this]
  | a :: tl, ks, hl, hk, hsub => by
      rw [List.map_cons, List.nodup_cons] at hl
      by_cases ha : f a ∈ ks
      · rw [List.filter_cons_of_pos (by simp [ha])]
        have htl : (tl.filter (fun x => decide (f x ∈ ks))).length =
            (tl.filter (fun x => decide (f x ∈ ks.erase (f a)))).length := by
          refine congrArg List.length (List.filter_congr (fun x hx => ?_))
          have hxa : f x ≠ f a := by
            intro hfx
            exact hl.1 (hfx ▸ List.mem_map_of_mem f hx)
          simp only [decide_eq_decide]
          rw [List.mem_erase_of_ne hxa]
        have ih := length_filter_mem_eq f tl (ks.erase (f a)) hl.2
          (hk.erase _)
          (fun v hv => by
            have hvks : v ∈ ks := List.mem_of_mem_erase hv
            have hvne : v ≠ f a := by
              intro hva
              exact (List.Nodup.not_mem_erase hk (hva ▸ hv)).elim
            have := hsub v hvks
            rw [List.map_cons, List.mem_cons] at this
            rcases this with h1 | h1
            · exact absurd h1 hvne
            · exact h1)
        rw [List.length_cons, htl, ih, List.length_erase_of_mem ha]
        have : 0 < ks.length := List.length_pos.2 (by
          intro hnil; rw [hnil] at ha; exact absurd ha (by simp))
        omega
      · rw [List.filter_cons_of_neg (by simp [ha])]
        exact length_filter_mem_eq f tl ks hl.2 hk (fun v hv => by
          have := hsub v hv
          rw [List.map_cons, List.mem_cons] at this
          rcases this with h1 | h1
          · exact absurd (h1 ▸ hv) ha
          · exact h1)

/-- Everything already in the dead list stays there as the killed list is
merged in. -/
lemma merge_killed_mono :
    ∀ (ks dead : List ℕ) (v : ℕ), v ∈ dead →
      v ∈ ks.foldl (fun d w => if w ∈ d then d else d ++ [w]) dead
  | [], _, _, hv => hv
  | k :: ks, dead, v, hv => by
      rw [List.foldl_cons]
      refine merge_killed_mono ks _ v ?_
      split
      · exact hv
      · exact List.mem_append_left _ hv

/-- Every killed id ends up in the merged dead list. -/
lemma merge_killed_incl :
    ∀ (ks dead : List ℕ) (v : ℕ), v ∈ ks →
      v ∈ ks.foldl (fun d w => if w ∈ d then d else d ++ [w]) dead
  | [], _, _, hv => absurd hv (by simp)
  | k :: ks, dead, v, hv => by
      rw [List.foldl_cons]
      rcases List.mem_cons.1 hv with h1 | h1
      · subst h1
        refine merge_killed_mono ks _ v ?_
        split
        next h => exact h
        next => exact List.mem_append_right _ (by simp)
      · exact merge_killed_incl ks _ v h1

/-! ## The population invariant of the decision pass (C9)

`world.py` lets a creature breed only while
`len(creatures) + len(new_children) - len(killed) <= MAX_CREATURES`, and
the live list keeps its length through the pass, so the pending newborns
can only ever exceed the pending kills by enough to reach
`MAX_CREATURES + 1` occupants. -/

def PassCount (cs : List TriadCreature) (ctr : ℕ) (s : PassState) : Prop :=
  s.creatures.map TriadCreature.id = cs.map TriadCreature.id ∧
  ((cs.length : ℤ) + s.new_children.length - s.killed.length ≤
    (MAX_CREATURES : ℤ) + 1) ∧
  s.killed.Nodup ∧
  (∀ v ∈ s.killed, v ∈ cs.map TriadCreature.id) ∧
  ctr ≤ s.counter ∧
  (∀ c ∈ s.new_children, ctr < c.id ∧ c.id ≤ s.counter) ∧
  (s.new_children.map TriadCreature.id).Nodup

/-- Mutating one live creature in place (same id) preserves the counting
invariant. -/
lemma PassCount.set_creature {cs : List TriadCreature} {ctr : ℕ}
    {s : PassState} (h : PassCount cs ctr s) (i : ℕ)
    (c2 c0 : TriadCreature) (hget : s.creatures.get? i = some c0)
    (hid : c2.id = c0.id) :
    PassCount cs ctr { s with creatures := s.creatures.set i c2 } := by
  obtain ⟨h1, h2, h3, h4, h5, h6, h7⟩ := h
  exact ⟨(map_id_set_of_get _ _ i c2 c0 hget hid).trans h1,
    h2, h3, h4, h5, h6, h7⟩

lemma tick_step_count (cs : List TriadCreature) (ctr : ℕ)
    (plants : List Plant) (o : ℕ → StepDraws) (s : PassState) (i : ℕ)
    (h : PassCount cs ctr s) :
    PassCount cs ctr (tick_step s.creatures s.killed plants o s i) := by
  have hslen : s.creatures.length = cs.length := by
    rw [← List.length_map s.creatures TriadCreature.id, h.1, List.length_map]
  unfold tick_step
  cases hget : s.creatures.get? i with
  | none => exact h
  | some c0 =>
    dsimp only
    split
    · exact h
    · split
      · -- satiated branch
        split
        next hcb =>
          -- can_breed holds
          split
          next m dist hfn =>
            split
            · -- mate: one newborn is appended under the breeding guard
              obtain ⟨h1, h2, h3, h4, h5, h6, h7⟩ := h
              have hguard : (cs.length : ℤ) + s.new_children.length -
                  s.killed.length ≤ (MAX_CREATURES : ℤ) := by
                rw [Bool.and_eq_true] at hcb
                have := of_decide_eq_true hcb.2
                rw [hslen] at this
                exact this
              have hids : (((s.creatures.set i
                    (c0.update.mate_with m (o i).mate s.counter).1).map
                    (fun x => if x.id = m.id then
                      (c0.update.mate_with m (o i).mate s.counter).2.1
                      else x)).map TriadCreature.id) =
                  cs.map TriadCreature.id := by
                rw [map_id_partner _ _ _
                  (mate_with_partner_id c0.update m (o i).mate s.counter)]
                exact (map_id_set_of_get TriadCreature.id s.creatures i
                  (c0.update.mate_with m (o i).mate s.counter).1 c0 hget
                  (mate_with_self_id c0.update m (o i).mate s.counter)).trans
                  h1
              have hncl : ∀ child : TriadCreature,
                  (s.new_children ++ [child]).length =
                    s.new_children.length + 1 := by
                intro child; simp
              have hinv2 : (cs.length : ℤ) +
                  (s.new_children.length + 1 : ℕ) - s.killed.length ≤
                  (MAX_CREATURES : ℤ) + 1 := by
                push_cast
                push_cast at hguard
                omega
              have hchild : ∀ c ∈ s.new_children ++
                  [(c0.update.mate_with m (o i).mate s.counter).2.2.1],
                  ctr < c.id ∧ c.id ≤ s.counter + 1 := by
                intro c hc
                rcases List.mem_append.1 hc with hc | hc
                · obtain ⟨hlt, hle⟩ := h6 c hc
                  exact ⟨hlt, hle.trans (Nat.le_succ _)⟩
                · rw [List.mem_singleton] at hc
                  subst hc
                  rw [mate_with_child_id]
                  exact ⟨Nat.lt_succ_of_le h5, le_refl _⟩
              have hnodup : ((s.new_children ++
                  [(c0.update.mate_with m (o i).mate s.counter).2.2.1]).map
                    TriadCreature.id).Nodup := by
                rw [List.map_append, List.nodup_append]
                refine ⟨h7, List.nodup_singleton _, ?_⟩
                intro v hv hv2
                simp only [List.map_cons, List.map_nil,
                  mate_with_child_id, List.mem_singleton] at hv2
                obtain ⟨c, hc, hcv⟩ := List.mem_map.1 hv
                obtain ⟨_, hle⟩ := h6 c hc
                omega
              split <;>
                exact ⟨hids, by rw [hncl]; exact hinv2, h3, h4,
                  by rw [mate_with_counter]; exact h5.trans (Nat.le_succ _),
                  by rw [mate_with_counter]; exact hchild, hnodup⟩
            · -- move towards the mate
              split <;>
                exact h.set_creature i _ c0 hget (move_towards_id _ _)
          next =>
            split <;>
              exact h.set_creature i _ c0 hget (move_random_id _ _)
        next =>
          split <;>
            exact h.set_creature i _ c0 hget (move_random_id _ _)
      · -- hungry branch
        rcases hungry_act_killed c0.update
            (find_nearest c0.update.position plants Plant.position)
            (find_nearest c0.update.position
              (s.creatures.filter (fun x =>
                decide (x.id ≠ c0.id) && decide (x.id ∉ s.killed)))
              TriadCreature.position) (o i) with hk | ⟨x, d, hno, hk⟩
        · rw [hk]
          simp only [Option.toList, List.append_nil]
          have hbase := h.set_creature i
            ((hungry_act c0.update
              (find_nearest c0.update.position plants Plant.position)
              (find_nearest c0.update.position
                (s.creatures.filter (fun x =>
                  decide (x.id ≠ c0.id) && decide (x.id ∉ s.killed)))
                TriadCreature.position) (o i)).1) c0 hget
            (hungry_act_id _ _ _ _)
          obtain ⟨h1, h2, h3, h4, h5, h6, h7⟩ := hbase
          split <;> exact ⟨h1, h2, h3, h4, h5, h6, h7⟩
        · -- a victim was killed: its id is a live id not yet marked
          have hxmem : x ∈ s.creatures.filter (fun y =>
              decide (y.id ≠ c0.id) && decide (y.id ∉ s.killed)) :=
            find_nearest_mem _ _ _ x d hno
          rw [List.mem_filter] at hxmem
          obtain ⟨hxlive, hxpred⟩ := hxmem
          have hxnk : x.id ∉ s.killed := by
            rw [Bool.and_eq_true] at hxpred
            exact of_decide_eq_true hxpred.2
          have hxid : x.id ∈ cs.map TriadCreature.id := by
            rw [← h.1]
            exact List.mem_map_of_mem TriadCreature.id hxlive
          rw [hk]
          simp only [Option.toList]
          have hbase := h.set_creature i
            ((hungry_act c0.update
              (find_nearest c0.update.position plants Plant.position)
              (find_nearest c0.update.position
                (s.creatures.filter (fun y =>
                  decide (y.id ≠ c0.id) && decide (y.id ∉ s.killed)))
                TriadCreature.position) (o i)).1) c0 hget
            (hungry_act_id _ _ _ _)
          obtain ⟨h1, h2, h3, h4, h5, h6, h7⟩ := hbase
          have hk2 : (s.killed ++ [x.id]).length = s.killed.length + 1 := by
            simp
          have hinv2 : (cs.length : ℤ) + s.new_children.length -
              (s.killed.length + 1 : ℕ) ≤ (MAX_CREATURES : ℤ) + 1 := by
            push_cast
            push_cast at h2
            omega
          have hnodup : (s.killed ++ [x.id]).Nodup := by
            rw [List.nodup_append]
            refine ⟨h3, List.nodup_singleton _, ?_⟩
            intro v hv hv2
            rw [List.mem_singleton] at hv2
            subst hv2
            exact hxnk hv
          have hmem : ∀ v ∈ s.killed ++ [x.id],
              v ∈ cs.map TriadCreature.id := by
            intro v hv
            rcases List.mem_append.1 hv with hv | hv
            · exact h4 v hv
            · rw [List.mem_singleton] at hv
              subst hv
              exact hxid
          split <;>
            exact ⟨h1, by rw [hk2]; exact hinv2, hnodup, hmem, h5, h6, h7⟩

lemma decision_pass_count (cs : List TriadCreature) (plants : List Plant)
    (o : ℕ → StepDraws) (ctr gr : ℕ)
    (hlen : cs.length ≤ MAX_CREATURES + 1) :
    PassCount cs ctr (decision_pass cs plants o ctr gr) := by
  unfold decision_pass
  suffices h : ∀ (l : List ℕ) (s : PassState), PassCount cs ctr s →
      PassCount cs ctr (l.foldl
        (fun s i => tick_step s.creatures s.killed plants o s i) s) by
    refine h _ _ ⟨rfl, ?_, List.nodup_nil, by simp [pass_start], le_refl _,
      by simp [pass_start], List.nodup_nil⟩
    dsimp only [pass_start]
    simp only [List.length_nil]
    push_cast
    omega
  intro l
  induction l with
  | nil => exact fun s hs => hs
  | cons i tl ih =>
      exact fun s hs => ih _ (tick_step_count cs ctr plants o s i hs)

/-- The live list after merging the pending deaths and births holds at
most `MAX_CREATURES + 1` creatures: the source's breeding guard
`len(creatures) + len(new_children) - len(killed) <= MAX_CREATURES` at
each birth limits the net growth to one above the cap. -/
lemma live_after_length_le (cs : List TriadCreature) (ctr : ℕ)
    (s : PassState) (hnd : (cs.map TriadCreature.id).Nodup)
    (hid : ∀ c ∈ cs, c.id ≤ ctr) (hpc : PassCount cs ctr s) :
    (live_after s).length ≤ MAX_CREATURES + 1 := by
  obtain ⟨h1, h2, h3, h4, h5, h6, h7⟩ := hpc
  have hids2 : (s.creatures ++ s.new_children).map TriadCreature.id =
      cs.map TriadCreature.id ++ s.new_children.map TriadCreature.id := by
    rw [List.map_append, h1]
  have hnd2 : ((s.creatures ++ s.new_children).map TriadCreature.id).Nodup
      := by
    rw [hids2, List.nodup_append]
    refine ⟨hnd, h7, ?_⟩
    intro v hv hv2
    obtain ⟨c, hc, hcv⟩ := List.mem_map.1 hv
    obtain ⟨c', hc', hcv'⟩ := List.mem_map.1 hv2
    have ha := hid c hc
    have hb := (h6 c' hc').1
    omega
  unfold live_after
  rw [foldl_erase_eq_filter TriadCreature.id _ _ hnd2]
  have hmono : ((s.creatures ++ s.new_children).filter (fun a =>
      decide (a.id ∉ merge_dead s))).length ≤
      ((s.creatures ++ s.new_children).filter (fun a =>
        decide (a.id ∉ s.killed))).length := by
    refine length_filter_mono_imp _ _ _ (fun a ha => ?_)
    have h1a := of_decide_eq_true ha
    refine decide_eq_true ?_
    intro hmem
    exact h1a (merge_killed_incl _ _ _ hmem)
  have hcomp := List.length_eq_length_filter_add
    (l := s.creatures ++ s.new_children)
    (fun a => decide (a.id ∈ s.killed))
  have hnotf : (s.creatures ++ s.new_children).filter
      (fun a => !(decide (a.id ∈ s.killed))) =
      (s.creatures ++ s.new_children).filter
        (fun a => decide (a.id ∉ s.killed)) := by
    refine List.filter_congr (fun a _ => ?_)
    rw [decide_not]
  have hmemk : ((s.creatures ++ s.new_children).filter
      (fun a => decide (a.id ∈ s.killed))).length = s.killed.length :=
    length_filter_mem_eq TriadCreature.id _ _ hnd2 h3 (fun v hv => by
      rw [hids2]
      exact List.mem_append_left _ (h4 v hv))
  have hlen2 : (s.creatures ++ s.new_children).length =
      cs.length + s.new_children.length := by
    rw [List.length_append]
    congr 1
    rw [← List.length_map s.creatures TriadCreature.id, h1, List.length_map]
  rw [hnotf] at hcomp
  omega

/-- C9: after any completed `tick` the number of live organisms sits
between the configured target `MAX_CREATURES` (the top-up floor — the
single configured bound acts as both the minimum and the cap) and
`MAX_CREATURES + 1` (at most one tick's worth of transient birth
overshoot, since `world.py` gates each mating on `len(creatures) +
len(new_children) - len(killed) <= MAX_CREATURES`).  Hypotheses: ids are
unique and bounded by the id counter (which the constructor guarantees)
and the pre-tick population is within the same band. -/
theorem c9_population_bounds (w : World) (o : TickDraws)
    (hnd : (w.creatures.map TriadCreature.id).Nodup)
    (hid : ∀ c ∈ w.creatures, c.id ≤ w.counter)
    (hlen : w.creatures.length ≤ MAX_CREATURES + 1) :
    MAX_CREATURES ≤ (tick w o).creatures.length ∧
    (tick w o).creatures.length ≤ MAX_CREATURES + 1 := by
  have hpc : PassCount w.creatures w.counter (tick_pass w o) :=
    decision_pass_count w.creatures (tick_plants w o) o.step w.counter
      w.generation_record hlen
  have hL := live_after_length_le w.creatures w.counter (tick_pass w o)
    hnd hid hpc
  unfold tick
  dsimp only
  rw [List.length_append, List.length_map, List.length_range]
  omega

/-- A concrete world within the invariant: the two fixture creatures,
ids 1 and 2, counter 2, no plants. -/
def w0 : World :=
  { creatures := cs2, plants := [], counter := 2, plant_counter := 0
    generation_record := 1 }

def o0 : TickDraws :=
  { step := o2, plant_pos := fun _ => vec0
    fresh_dna := fun _ => dna_draws14, fresh_x := fun _ => 0
    fresh_y := fun _ => 0 }

/-- C9 witness: the population theorem applied at a concrete world. -/
theorem c9_population_bounds_witness :
    MAX_CREATURES ≤ (tick w0 o0).creatures.length ∧
    (tick w0 o0).creatures.length ≤ MAX_CREATURES + 1 :=
  c9_population_bounds w0 o0 (by decide) (by decide) (by decide)

end Lajfi
